import Mathlib

/-!
Shallow embedding of the METAR-to-Lattice weather integration
(`metar_lattice_integration.py` and the modified variant
`metar_lattice_integration_modified_2.py`): flight-category
classification, disposition mapping, per-parameter health banding,
entity synthesis, the per-cycle publish loop and the outer
reconciliation loops.

Numeric conventions: Python floats (visibility, temperature, wind speed)
are embedded as rationals `ℚ`; a ceiling (annotated `Optional[int]`) as
`Option ℤ`.  Fallible per-station work is embedded with an explicit
outcome oracle.  Formatted message strings embed the raw value via
`toString` in place of Python `:.1f` formatting; no property below
depends on the digits of a formatted number.
-/

namespace Metar

/-- The Lattice SDK disposition values used by the program. -/
inductive Disposition
  | ASSUMED_FRIENDLY
  | SUSPICIOUS
  | HOSTILE
deriving DecidableEq, Repr

/-- The Lattice SDK health-status values the program mentions.
The modified variant names both `FAIL` (temperature, visibility,
flight condition) and `ERROR` (wind) as its severe band. -/
inductive HealthStatus
  | HEALTHY
  | WARN
  | FAIL
  | ERROR
  | OFFLINE
deriving DecidableEq, Repr

/-- The spec's canonical four-level health vocabulary
(`HEALTHY`/`WARN`/`ERROR`/`OFFLINE`); per §9 of the spec the code's
`FAIL` is a synonym of the spec's `ERROR`. -/
inductive SpecBand
  | HEALTHY
  | WARN
  | ERROR
  | OFFLINE
deriving DecidableEq, Repr

/-- Collapse the code's health vocabulary onto the spec's canonical one:
`FAIL` and `ERROR` are the same semantic level. -/
def specBand : HealthStatus → SpecBand
  | .HEALTHY => .HEALTHY
  | .WARN => .WARN
  | .FAIL => .ERROR
  | .ERROR => .ERROR
  | .OFFLINE => .OFFLINE

namespace FlightConditions

/-- `FlightConditions.determine_flight_conditions` (identical in both
variants): ordered most-severe-first classification of visibility
(statute miles) and ceiling (feet AGL); a `None` ceiling is replaced by
10000 inside the function. -/
def determine_flight_conditions (visibility_miles : ℚ) (ceiling_feet : Option ℤ) : String :=
  let c : ℤ := ceiling_feet.getD 10000
  if c < 500 ∨ visibility_miles < 1 then "LIFR"
  else if c < 1000 ∨ visibility_miles < 3 then "IFR"
  else if c < 3000 ∨ visibility_miles < 5 then "MVFR"
  else "VFR"

/-- `FlightConditions.get_disposition_for_condition` (modified variant):
`VFR` and `MVFR` are named; every other string falls into the
`else` branch and maps to `HOSTILE`. -/
def get_disposition_for_condition (flight_condition : String) : Disposition :=
  if flight_condition = "VFR" then .ASSUMED_FRIENDLY
  else if flight_condition = "MVFR" then .SUSPICIOUS
  else .HOSTILE

end FlightConditions

/-- `_get_health_status_for_condition` (modified variant). -/
def _get_health_status_for_condition (condition : String) : HealthStatus :=
  if condition = "VFR" then .HEALTHY
  else if condition = "MVFR" then .WARN
  else if condition = "IFR" then .FAIL
  else if condition = "LIFR" then .FAIL
  else .OFFLINE

/-- `_get_health_status_for_temperature` (modified variant). -/
def _get_health_status_for_temperature (temp_c : ℚ) : HealthStatus :=
  if temp_c < -20 ∨ temp_c > 40 then .FAIL
  else if temp_c < -10 ∨ temp_c > 35 then .WARN
  else .HEALTHY

/-- `_get_health_status_for_wind` (modified variant); note the source
returns `HealthStatus.ERROR` here, not `FAIL` as the other two do. -/
def _get_health_status_for_wind (wind_kt : ℚ) : HealthStatus :=
  if wind_kt > 30 then .ERROR
  else if wind_kt > 15 then .WARN
  else .HEALTHY

/-- `_get_health_status_for_visibility` (modified variant). -/
def _get_health_status_for_visibility (visibility_miles : ℚ) : HealthStatus :=
  if visibility_miles < 1 then .FAIL
  else if visibility_miles < 5 then .WARN
  else .HEALTHY

/-- One `ComponentMessage` of the SDK: a message string with a status. -/
structure ComponentMessage where
  message : String
  status : HealthStatus
deriving DecidableEq, Repr

/-- One `ComponentHealth` of the SDK: sub-identifier, label, band,
messages. -/
structure ComponentHealth where
  id : String
  name : String
  health : HealthStatus
  messages : List ComponentMessage
deriving DecidableEq, Repr

/-- The SDK environment values the program uses. -/
inductive Environment
  | AIR
  | SURFACE
deriving DecidableEq, Repr

/-- The slice of the station reference table one station contributes:
`airport['name']`, `airport['lat']`, `airport['lon']`. -/
structure Airport where
  name : String
  lat : ℚ
  lon : ℚ
deriving DecidableEq, Repr

/-- The fields of one station's processed METAR dictionary that
`create_weather_entity` reads.  Every field is optional: `weather.get`
on a missing key yields `None` (or the supplied default). -/
structure WeatherData where
  flight_condition : Option String
  temperature_c : Option ℚ
  wind_speed_kt : Option ℚ
  visibility_miles : Option ℚ
deriving DecidableEq, Repr

/-- The slice of the SDK `Entity` record that `create_weather_entity`
fills (timestamps as seconds since an arbitrary epoch). -/
structure Entity where
  entity_id : String
  description : String
  created_time : ℚ
  expiry_time : ℚ
  is_live : Bool
  aliases_name : String
  latitude_degrees : ℚ
  longitude_degrees : ℚ
  disposition : Disposition
  environment : Environment
  health_status : HealthStatus
  components : List ComponentHealth
deriving DecidableEq, Repr

/-- The value of the class-level attribute access `Entity.entity_id`
that the modified variant passes as the component id for temperature,
wind and visibility: a dataclass field default of the SDK, a single
station-independent constant (the empty string), not any instance's
identifier. -/
def entity_id_class_attribute : String := ""

/-- The `ComponentHealth(...)` built for the flight condition in
`create_weather_entity`: station-derived id, both the component and its
message carrying the condition's band. -/
def flight_condition_component (icao : String) (flight_condition : String) : ComponentHealth :=
  let condition_status := _get_health_status_for_condition flight_condition
  { id := icao ++ "_flight_condition"
    name := "Flight Condition"
    health := condition_status
    messages := [{ message := "Current flight condition: " ++ flight_condition
                   status := condition_status }] }

/-- The `ComponentHealth(...)` built for temperature in
`create_weather_entity`; its id is the class attribute `Entity.entity_id`
(the per-station `f"{icao}_temperature"` is commented out in the
source). -/
def temperature_component (temperature_c : ℚ) : ComponentHealth :=
  let temperature_f := temperature_c * 9 / 5 + 32
  let temp_status := _get_health_status_for_temperature temperature_c
  { id := entity_id_class_attribute
    name := "Temperature"
    health := temp_status
    messages := [{ message := "Current temperature: " ++ toString temperature_c ++ "°C ("
                     ++ toString temperature_f ++ "°F)"
                   status := temp_status }] }

/-- The `ComponentHealth(...)` built for wind speed in
`create_weather_entity`; id as for temperature. -/
def wind_speed_component (wind_speed : ℚ) : ComponentHealth :=
  let wind_status := _get_health_status_for_wind wind_speed
  { id := entity_id_class_attribute
    name := "Wind Speed"
    health := wind_status
    messages := [{ message := "Current wind speed: " ++ toString wind_speed ++ " knots"
                   status := wind_status }] }

/-- The `ComponentHealth(...)` built for visibility in
`create_weather_entity`; id as for temperature. -/
def visibility_component (visibility : ℚ) : ComponentHealth :=
  let visibility_status := _get_health_status_for_visibility visibility
  { id := entity_id_class_attribute
    name := "Visibility"
    health := visibility_status
    messages := [{ message := "Current visibility: " ++ toString visibility ++ " miles"
                   status := visibility_status }] }

/-- `LatticeWeatherIntegration.create_weather_entity` (modified
variant): synthesizes the Lattice entity for one station.
`time_now` stands for `datetime.now(timezone.utc)` in seconds; the
expiry is two hours later.  Components are appended in source order:
flight condition (when the string is truthy), then temperature, wind
speed and visibility, each only when the value is present; the function
is total — an absent optional value skips its component, it never
fails. -/
def create_weather_entity (icao : String) (airport : Airport) (weather : WeatherData)
    (time_now : ℚ) : Entity :=
  let expiry_time := time_now + 2 * 3600
  let flight_condition := weather.flight_condition.getD "Unknown"
  let temperature_c := weather.temperature_c
  let description := airport.name ++ " (" ++ icao ++ ") - " ++ flight_condition
  let disposition := FlightConditions.get_disposition_for_condition flight_condition
  let comps0 : List ComponentHealth :=
    if flight_condition ≠ "" then [flight_condition_component icao flight_condition]
    else []
  let comps1 : List ComponentHealth :=
    match temperature_c with
    | some t => comps0 ++ [temperature_component t]
    | none => comps0
  let comps2 : List ComponentHealth :=
    match weather.wind_speed_kt with
    | some wind_speed => comps1 ++ [wind_speed_component wind_speed]
    | none => comps1
  let comps3 : List ComponentHealth :=
    match weather.visibility_miles with
    | some visibility => comps2 ++ [visibility_component visibility]
    | none => comps2
  let overall_health_status := _get_health_status_for_condition flight_condition
  { entity_id := "weather_" ++ icao
    description := description
    created_time := time_now
    expiry_time := expiry_time
    is_live := true
    aliases_name := airport.name ++ " (" ++ icao ++ ")"
    latitude_degrees := airport.lat
    longitude_degrees := airport.lon
    disposition := disposition
    environment := .AIR
    health_status := overall_health_status
    components := comps3 }

/-- The sub-identifiers of an entity's health components, in order. -/
def componentIds (e : Entity) : List String := e.components.map (·.id)

/-- The labels of an entity's health components, in order. -/
def componentNames (e : Entity) : List String := e.components.map (·.name)

/-- The expression `weather_data['visibility_miles'] or 10.0` at the
`get_metar_data` / `_process_metar_data` call site of the classifier,
in both variants.  Python `or` takes the right operand whenever the
left is falsy, which for a float means `None` *or* `0.0`. -/
def visibility_or_default (visibility_miles : Option ℚ) : ℚ :=
  match visibility_miles with
  | none => 10
  | some v => if v = 0 then 10 else v

/-- The flight condition `get_metar_data` stores for a station:
`determine_flight_conditions(weather_data['visibility_miles'] or 10.0,
ceiling_feet)`. -/
def metar_flight_condition (visibility_miles : Option ℚ) (ceiling_feet : Option ℤ) : String :=
  FlightConditions.determine_flight_conditions (visibility_or_default visibility_miles) ceiling_feet

/-- One entry of the dictionary `publish_weather_entities` iterates
over: either a parse-error marker (`'error' in data`) or processed
weather data. -/
inductive StationData
  | err (msg : String)
  | ok (w : WeatherData)
deriving DecidableEq, Repr

/-- Whether a station's dictionary entry carries an error marker. -/
def StationData.isErr : StationData → Bool
  | .err _ => true
  | .ok _ => false

/-- `LatticeWeatherIntegration.publish_weather_entities` (modified
variant), with the fallible per-station body made explicit: `airports`
is the station reference lookup (`self.airports.get`), and
`publishRaises icao` tells whether `create_weather_entity` +
`publish_entity` raises for that station (the gRPC call is external).
Error entries and unknown stations are skipped; a raising station is
caught, logged and not counted; the iteration always continues with the
remaining stations and the count of successes is returned. -/
def publish_weather_entities (airports : String → Option Airport)
    (publishRaises : String → Bool) : List (String × StationData) → Nat
  | [] => 0
  | (icao, data) :: rest =>
      let tail := publish_weather_entities airports publishRaises rest
      match data with
      | .err _ => tail
      | .ok _ =>
          match airports icao with
          | none => tail
          | some _ => if publishRaises icao then tail else tail + 1

/-- What one body of the outer `while True:` loop does, seen from
outside: it completes normally, raises an exception the `except` arm
catches, or is hit by a `KeyboardInterrupt`. -/
inductive CycleOutcome
  | ok
  | raises
  | interrupt
deriving DecidableEq, Repr

/-- State of a reconciliation loop: about to run cycle `n`, or
stopped. -/
inductive LoopState
  | running (n : ℕ)
  | stopped
deriving DecidableEq, Repr

/-- One iteration of `LatticeWeatherIntegration.run_integration`
(`metar_lattice_integration.py`): `while True:` with
`except KeyboardInterrupt: break` and `except Exception:` log and
retry — only an interrupt leaves the loop. -/
def run_integration_step (outcomes : ℕ → CycleOutcome) : LoopState → LoopState
  | .running n =>
      match outcomes n with
      | .interrupt => .stopped
      | .ok => .running (n + 1)
      | .raises => .running (n + 1)
  | .stopped => .stopped

/-- The sleep `run_integration` performs after cycle `n`, in seconds:
`update_interval_minutes * 60` on a normal cycle, the hardcoded 300 s
recovery wait when the cycle raised, none when interrupted. -/
def run_integration_wait (update_interval_minutes : ℕ) (outcomes : ℕ → CycleOutcome)
    (n : ℕ) : ℕ :=
  match outcomes n with
  | .ok => update_interval_minutes * 60
  | .raises => 300
  | .interrupt => 0

/-- One iteration of `LatticeWeatherIntegration.start` (modified
variant): `while True:` with a single `except Exception:` arm; a
`KeyboardInterrupt` is not caught and propagates out of the loop. -/
def start_step (outcomes : ℕ → CycleOutcome) : LoopState → LoopState
  | .running n =>
      match outcomes n with
      | .interrupt => .stopped
      | .ok => .running (n + 1)
      | .raises => .running (n + 1)
  | .stopped => .stopped

/-- The sleep `start` performs after cycle `n`, in seconds: the
`asyncio.sleep(self.update_interval_minutes * 60)` sits after the
`try/except`, so a caught exception waits the same normal interval as a
successful cycle — `start` has no shorter recovery wait. -/
def start_wait (update_interval_minutes : ℕ) (outcomes : ℕ → CycleOutcome) (n : ℕ) : ℕ :=
  match outcomes n with
  | .interrupt => 0
  | .ok => update_interval_minutes * 60
  | .raises => update_interval_minutes * 60

end Metar
namespace Metar

lemma determine_eq_LIFR_iff (v : ℚ) (c : ℤ) :
    FlightConditions.determine_flight_conditions v (some c) = "LIFR" ↔ c < 500 ∨ v < 1 := by
  simp only [FlightConditions.determine_flight_conditions, Option.getD_some]
  split_ifs with h1 h2 h3 <;>
    first
      | exact iff_of_true rfl h1
      | exact iff_of_false (by decide) h1

lemma determine_eq_IFR_iff (v : ℚ) (c : ℤ) :
    FlightConditions.determine_flight_conditions v (some c) = "IFR" ↔
      (500 ≤ c ∧ 1 ≤ v) ∧ (c < 1000 ∨ v < 3) := by
  simp only [FlightConditions.determine_flight_conditions, Option.getD_some]
  split_ifs with h1 h2 h3
  · refine iff_of_false (by decide) ?_
    rintro ⟨⟨h5, h1v⟩, -⟩
    rcases h1 with hc | hv
    · omega
    · linarith
  · push_neg at h1
    exact iff_of_true rfl ⟨⟨h1.1, h1.2⟩, h2⟩
  · exact iff_of_false (by decide) (fun h => h2 h.2)
  · exact iff_of_false (by decide) (fun h => h2 h.2)

lemma determine_eq_MVFR_iff (v : ℚ) (c : ℤ) :
    FlightConditions.determine_flight_conditions v (some c) = "MVFR" ↔
      (1000 ≤ c ∧ 3 ≤ v) ∧ (c < 3000 ∨ v < 5) := by
  simp only [FlightConditions.determine_flight_conditions, Option.getD_some]
  split_ifs with h1 h2 h3
  · refine iff_of_false (by decide) ?_
    rintro ⟨⟨h10, h3v⟩, -⟩
    rcases h1 with hc | hv
    · omega
    · linarith
  · refine iff_of_false (by decide) ?_
    rintro ⟨⟨h10, h3v⟩, -⟩
    rcases h2 with hc | hv
    · omega
    · linarith
  · push_neg at h2
    exact iff_of_true rfl ⟨⟨h2.1, h2.2⟩, h3⟩
  · exact iff_of_false (by decide) (fun h => h3 h.2)

lemma determine_eq_VFR_iff (v : ℚ) (c : ℤ) :
    FlightConditions.determine_flight_conditions v (some c) = "VFR" ↔
      3000 ≤ c ∧ 5 ≤ v := by
  simp only [FlightConditions.determine_flight_conditions, Option.getD_some]
  split_ifs with h1 h2 h3
  · refine iff_of_false (by decide) ?_
    rintro ⟨h30, h5v⟩
    rcases h1 with hc | hv
    · omega
    · linarith
  · refine iff_of_false (by decide) ?_
    rintro ⟨h30, h5v⟩
    rcases h2 with hc | hv
    · omega
    · linarith
  · refine iff_of_false (by decide) ?_
    rintro ⟨h30, h5v⟩
    rcases h3 with hc | hv
    · omega
    · linarith
  · push_neg at h3
    exact iff_of_true rfl ⟨h3.1, h3.2⟩

end Metar
namespace Metar

lemma create_weather_entity_components (icao : String) (a : Airport) (w : WeatherData)
    (t : ℚ) :
    (create_weather_entity icao a w t).components =
      (if w.flight_condition.getD "Unknown" ≠ "" then
          [flight_condition_component icao (w.flight_condition.getD "Unknown")]
        else [])
      ++ (match w.temperature_c with | some x => [temperature_component x] | none => [])
      ++ (match w.wind_speed_kt with | some x => [wind_speed_component x] | none => [])
      ++ (match w.visibility_miles with | some x => [visibility_component x] | none => []) := by
  rcases w with ⟨fc, tc, ws, vm⟩
  cases tc <;> cases ws <;> cases vm <;> simp [create_weather_entity]

lemma componentNames_create_weather_entity (icao : String) (a : Airport) (w : WeatherData)
    (t : ℚ) :
    componentNames (create_weather_entity icao a w t) =
      (if w.flight_condition.getD "Unknown" ≠ "" then ["Flight Condition"] else [])
      ++ (if w.temperature_c.isSome then ["Temperature"] else [])
      ++ (if w.wind_speed_kt.isSome then ["Wind Speed"] else [])
      ++ (if w.visibility_miles.isSome then ["Visibility"] else []) := by
  rw [componentNames, create_weather_entity_components]
  rcases w with ⟨fc, tc, ws, vm⟩
  cases tc <;> cases ws <;> cases vm <;>
    by_cases h : fc.getD "Unknown" ≠ "" <;>
      simp [h, flight_condition_component, temperature_component, wind_speed_component,
        visibility_component]

lemma componentIds_create_weather_entity (icao : String) (a : Airport) (w : WeatherData)
    (t : ℚ) :
    componentIds (create_weather_entity icao a w t) =
      (if w.flight_condition.getD "Unknown" ≠ "" then [icao ++ "_flight_condition"] else [])
      ++ (if w.temperature_c.isSome then [entity_id_class_attribute] else [])
      ++ (if w.wind_speed_kt.isSome then [entity_id_class_attribute] else [])
      ++ (if w.visibility_miles.isSome then [entity_id_class_attribute] else []) := by
  rw [componentIds, create_weather_entity_components]
  rcases w with ⟨fc, tc, ws, vm⟩
  cases tc <;> cases ws <;> cases vm <;>
    by_cases h : fc.getD "Unknown" ≠ "" <;>
      simp [h, flight_condition_component, temperature_component, wind_speed_component,
        visibility_component]

lemma publish_weather_entities_eq_countP (airports : String → Option Airport)
    (publishRaises : String → Bool) (xs : List (String × StationData)) :
    publish_weather_entities airports publishRaises xs =
      xs.countP (fun p => !p.2.isErr && (airports p.1).isSome && !publishRaises p.1) := by
  induction xs with
  | nil => rfl
  | cons hd tl ih =>
      obtain ⟨icao, d⟩ := hd
      cases d with
      | err m => simp [publish_weather_entities, List.countP_cons, ih, StationData.isErr]
      | ok wd =>
          cases h : airports icao <;>
            cases hp : publishRaises icao <;>
              simp [publish_weather_entities, List.countP_cons, ih, StationData.isErr, h, hp]

end Metar
namespace Metar

/-- C1: `determine_flight_conditions` classifies every (visibility, ceiling)
pair by the strict-threshold cascade — LIFR iff ceiling < 500 or
visibility < 1; IFR iff neither holds and ceiling < 1000 or visibility < 3;
MVFR iff additionally neither of those holds and ceiling < 3000 or
visibility < 5; otherwise VFR.  An absent ceiling is replaced by the 10000
sentinel inside the function, and a value exactly at a threshold
(visibility 1.0 with ceiling 500) falls into the less severe band, IFR. -/
theorem C1_condition_classifier (v : ℚ) (c : ℤ) :
    (FlightConditions.determine_flight_conditions v (some c) = "LIFR" ↔ c < 500 ∨ v < 1)
  ∧ (FlightConditions.determine_flight_conditions v (some c) = "IFR" ↔
      (500 ≤ c ∧ 1 ≤ v) ∧ (c < 1000 ∨ v < 3))
  ∧ (FlightConditions.determine_flight_conditions v (some c) = "MVFR" ↔
      (1000 ≤ c ∧ 3 ≤ v) ∧ (c < 3000 ∨ v < 5))
  ∧ (FlightConditions.determine_flight_conditions v (some c) = "VFR" ↔ 3000 ≤ c ∧ 5 ≤ v)
  ∧ FlightConditions.determine_flight_conditions v none
      = FlightConditions.determine_flight_conditions v (some 10000)
  ∧ FlightConditions.determine_flight_conditions 1 (some 500) = "IFR" :=
  ⟨determine_eq_LIFR_iff v c, determine_eq_IFR_iff v c, determine_eq_MVFR_iff v c,
   determine_eq_VFR_iff v c, rfl, by decide⟩

/-- C2: the disposition mapping is total — VFR maps to ASSUMED_FRIENDLY, MVFR
to SUSPICIOUS, and every other flight-category string (IFR, LIFR, "Unknown",
any unrecognized value) to HOSTILE — and every synthesized entity's
disposition field equals this function applied to the entity's own
flight-category string, never set independently. -/
theorem C2_disposition_mapping :
    FlightConditions.get_disposition_for_condition "VFR" = Disposition.ASSUMED_FRIENDLY
  ∧ FlightConditions.get_disposition_for_condition "MVFR" = Disposition.SUSPICIOUS
  ∧ (∀ s : String, s ≠ "VFR" → s ≠ "MVFR" →
      FlightConditions.get_disposition_for_condition s = Disposition.HOSTILE)
  ∧ (∀ (icao : String) (a : Airport) (w : WeatherData) (t : ℚ),
      (create_weather_entity icao a w t).disposition =
        FlightConditions.get_disposition_for_condition (w.flight_condition.getD "Unknown")) := by
  refine ⟨by decide, by decide, ?_, fun icao a w t => rfl⟩
  intro s h1 h2
  simp [FlightConditions.get_disposition_for_condition, h1, h2]

/-- Witness for C2 at the concrete unrecognized category "Unknown". -/
theorem C2_disposition_mapping_witness :
    FlightConditions.get_disposition_for_condition "Unknown" = Disposition.HOSTILE :=
  C2_disposition_mapping.2.2.1 "Unknown" (by decide) (by decide)

/-- C3: in the spec's canonical vocabulary (code `FAIL` = spec `ERROR`), the
temperature band is ERROR when t < -20 or t > 40, WARN when t < -10 or
t > 35 and not ERROR, else HEALTHY; the wind band is ERROR when w > 30, WARN
when w > 15 and not ERROR, else HEALTHY; the visibility band is ERROR when
v < 1, WARN when v < 5 and not ERROR, else HEALTHY. -/
theorem C3_parameter_health_bands (t w v : ℚ) :
    specBand (_get_health_status_for_temperature t) =
      (if t < -20 ∨ t > 40 then SpecBand.ERROR
       else if t < -10 ∨ t > 35 then SpecBand.WARN else SpecBand.HEALTHY)
  ∧ specBand (_get_health_status_for_wind w) =
      (if w > 30 then SpecBand.ERROR else if w > 15 then SpecBand.WARN
       else SpecBand.HEALTHY)
  ∧ specBand (_get_health_status_for_visibility v) =
      (if v < 1 then SpecBand.ERROR else if v < 5 then SpecBand.WARN
       else SpecBand.HEALTHY)
  ∧ specBand HealthStatus.FAIL = SpecBand.ERROR
  ∧ specBand HealthStatus.ERROR = SpecBand.ERROR := by
  refine ⟨?_, ?_, ?_, rfl, rfl⟩ <;>
    (simp only [_get_health_status_for_temperature, _get_health_status_for_wind,
      _get_health_status_for_visibility]
     split_ifs <;> rfl)

/-- C4 counterexample: at temperature exactly -20 the evaluator returns WARN —
the strict `<` puts the temperature boundary in the less severe band too —
not the ERROR level the claim asserts for it. -/
theorem C4_boundary_counterexample :
    _get_health_status_for_temperature (-20) = HealthStatus.WARN
  ∧ specBand (_get_health_status_for_temperature (-20)) ≠ SpecBand.ERROR := by decide

/-- C4 (amended): every boundary follows the strict-inequality rule, falling
into the less severe band: temperature exactly -20 and 40 give WARN and
exactly -10 and 35 give HEALTHY; wind exactly 30 gives WARN and exactly 15
HEALTHY; visibility exactly 1 gives WARN and exactly 5 HEALTHY. -/
theorem C4_boundary_values :
    _get_health_status_for_temperature (-20) = HealthStatus.WARN
  ∧ _get_health_status_for_temperature 40 = HealthStatus.WARN
  ∧ _get_health_status_for_temperature (-10) = HealthStatus.HEALTHY
  ∧ _get_health_status_for_temperature 35 = HealthStatus.HEALTHY
  ∧ _get_health_status_for_wind 30 = HealthStatus.WARN
  ∧ _get_health_status_for_wind 15 = HealthStatus.HEALTHY
  ∧ _get_health_status_for_visibility 1 = HealthStatus.WARN
  ∧ _get_health_status_for_visibility 5 = HealthStatus.HEALTHY := by decide

/-- C5 (code evaluated at the failing input): with a present visibility of
exactly 0.0 and no ceiling, the call-site expression
`weather_data['visibility_miles'] or 10.0` yields 10.0 — Python `or`
replaces any falsy left operand, and the float 0.0 is falsy — so the stored
flight condition is VFR, although classifying the present value 0.0 itself
would give LIFR. -/
theorem C5_zero_visibility_defaulted :
    visibility_or_default (some 0) = 10
  ∧ metar_flight_condition (some 0) none = "VFR"
  ∧ FlightConditions.determine_flight_conditions 0 none = "LIFR" := by decide

/-- C6: every synthesized entity's overall health status is computed by the
same `_get_health_status_for_condition` applied to the entity's own
flight-category string — the very function that bands the flight-condition
component — and in the spec's vocabulary that function maps VFR to HEALTHY,
MVFR to WARN, IFR and LIFR to ERROR, and any other string to OFFLINE. -/
theorem C6_overall_health (icao : String) (a : Airport) (w : WeatherData) (t : ℚ)
    (s : String) :
    (create_weather_entity icao a w t).health_status =
      _get_health_status_for_condition (w.flight_condition.getD "Unknown")
  ∧ (flight_condition_component icao s).health = _get_health_status_for_condition s
  ∧ specBand (_get_health_status_for_condition s) =
      (if s = "VFR" then SpecBand.HEALTHY
       else if s = "MVFR" then SpecBand.WARN
       else if s = "IFR" then SpecBand.ERROR
       else if s = "LIFR" then SpecBand.ERROR
       else SpecBand.OFFLINE) := by
  refine ⟨rfl, rfl, ?_⟩
  simp only [_get_health_status_for_condition]
  split_ifs <;> rfl

/-- C7: the temperature, wind-speed and visibility health components are each
present in the synthesized entity's component list exactly when the
corresponding raw value is present; absence skips the component (the total
synthesis function raises nothing), so the list can have fewer than four
entries — with only a flight condition present it has exactly one. -/
theorem C7_optional_components (icao : String) (a : Airport) (w : WeatherData) (t : ℚ) :
    ("Temperature" ∈ componentNames (create_weather_entity icao a w t) ↔
      w.temperature_c.isSome)
  ∧ ("Wind Speed" ∈ componentNames (create_weather_entity icao a w t) ↔
      w.wind_speed_kt.isSome)
  ∧ ("Visibility" ∈ componentNames (create_weather_entity icao a w t) ↔
      w.visibility_miles.isSome)
  ∧ (create_weather_entity icao a w t).components.length ≤ 4
  ∧ (create_weather_entity "KBOS" ⟨"Logan", 42, -71⟩
      ⟨some "VFR", none, none, none⟩ 0).components.length = 1 := by
  have hn := componentNames_create_weather_entity icao a w t
  have hc := create_weather_entity_components icao a w t
  rcases w with ⟨fc, tc, ws, vm⟩
  refine ⟨?_, ?_, ?_, ?_, ?_⟩
  · rw [hn]; cases tc <;> cases ws <;> cases vm <;>
      by_cases h : fc.getD "Unknown" ≠ "" <;> simp [h]
  · rw [hn]; cases tc <;> cases ws <;> cases vm <;>
      by_cases h : fc.getD "Unknown" ≠ "" <;> simp [h]
  · rw [hn]; cases tc <;> cases ws <;> cases vm <;>
      by_cases h : fc.getD "Unknown" ≠ "" <;> simp [h]
  · rw [hc]; cases tc <;> cases ws <;> cases vm <;>
      by_cases h : fc.getD "Unknown" ≠ "" <;> simp [h]
  · rfl

/-- C8: the per-cycle publish count distributes over any split of the station
batch — a failure among the first stations never affects how the rest are
attempted or counted — and it equals exactly the number of stations whose
entry carries no error marker, whose station is known, and whose
synthesize-plus-publish does not raise; the caught per-station exception is
never propagated (the function is total). -/
theorem C8_publish_isolation (airports : String → Option Airport)
    (publishRaises : String → Bool) (xs ys : List (String × StationData)) :
    publish_weather_entities airports publishRaises (xs ++ ys) =
      publish_weather_entities airports publishRaises xs +
        publish_weather_entities airports publishRaises ys
  ∧ publish_weather_entities airports publishRaises xs =
      xs.countP (fun p => !p.2.isErr && (airports p.1).isSome && !publishRaises p.1) := by
  refine ⟨?_, publish_weather_entities_eq_countP airports publishRaises xs⟩
  simp [publish_weather_entities_eq_countP, List.countP_append]

/-- C9 counterexample: in the modified variant's `start` loop the
`asyncio.sleep` sits after the `try/except`, so the wait after a cycle whose
body raised is the normal 30-minute interval (1800 s), not a recovery
interval shorter than the tick. -/
theorem C9_no_recovery_wait_counterexample :
    start_wait 30 (fun _ => CycleOutcome.raises) 0 = 1800
  ∧ ¬ start_wait 30 (fun _ => CycleOutcome.raises) 0 < 30 * 60 := by decide

/-- C9 (amended): on a cycle whose body raises, `run_integration` logs and
waits the fixed 300-second recovery interval — shorter than the default
30-minute tick — before retrying, while the modified variant's `start` waits
its normal `update_interval_minutes * 60` interval; in both loops the
exception never terminates the loop: the raising cycle is followed by the
next one. -/
theorem C9_loop_recovery (outcomes : ℕ → CycleOutcome) (n m : ℕ)
    (h : outcomes n = CycleOutcome.raises) :
    run_integration_step outcomes (LoopState.running n) = LoopState.running (n + 1)
  ∧ run_integration_wait m outcomes n = 300
  ∧ 300 < 30 * 60
  ∧ start_step outcomes (LoopState.running n) = LoopState.running (n + 1)
  ∧ start_wait m outcomes n = m * 60 := by
  refine ⟨?_, ?_, by norm_num, ?_, ?_⟩ <;>
    simp [run_integration_step, run_integration_wait, start_step, start_wait, h]

/-- Witness for C9 at the all-raising outcome stream, cycle 0, with the
default 30-minute interval. -/
theorem C9_loop_recovery_witness :
    run_integration_step (fun _ => CycleOutcome.raises) (LoopState.running 0) =
      LoopState.running 1
  ∧ run_integration_wait 30 (fun _ => CycleOutcome.raises) 0 = 300
  ∧ 300 < 30 * 60
  ∧ start_step (fun _ => CycleOutcome.raises) (LoopState.running 0) = LoopState.running 1
  ∧ start_wait 30 (fun _ => CycleOutcome.raises) 0 = 30 * 60 :=
  C9_loop_recovery (fun _ => CycleOutcome.raises) 0 30 rfl

/-- C10: in every synthesized entity only the flight-condition component's
sub-identifier is derived from the station (icao ++ "_flight_condition");
the temperature, wind-speed and visibility components all carry the class
attribute `Entity.entity_id` — one fixed station-independent constant, the
empty string — so those three ids coincide with each other and with every
other station's. -/
theorem C10_component_ids (icao : String) (a : Airport) (w : WeatherData) (t : ℚ) :
    componentIds (create_weather_entity icao a w t) =
      (if w.flight_condition.getD "Unknown" ≠ "" then [icao ++ "_flight_condition"] else [])
      ++ (if w.temperature_c.isSome then [entity_id_class_attribute] else [])
      ++ (if w.wind_speed_kt.isSome then [entity_id_class_attribute] else [])
      ++ (if w.visibility_miles.isSome then [entity_id_class_attribute] else [])
  ∧ entity_id_class_attribute = "" :=
  ⟨componentIds_create_weather_entity icao a w t, rfl⟩

end Metar
